import Mathlib

/-!
Shallow embedding of `graph_of_thoughts/language_models/vllm_client.py`
(class `vLLMClient`): the adaptive multi-response `query` loop with
failure-driven batch shrinking, the backoff-wrapped `chat` transport call
with usage/cost accounting, the optional response cache, and
`get_response_texts`.

Modelling conventions:
* Python arbitrary-precision non-negative integers are `Nat`; Python `//`
  on non-negative values is `Nat` division.
* Python floats in the cost computation are modelled as `ℚ`.
* The OpenAI transport (`self.client.chat.completions.create`) is an
  oracle parameter `transport : Nat → List Message → Nat → Except TransportErr
  ChatCompletion`; its first argument is the index of the transport call
  (how many transport calls the client has made so far), so an oracle can
  make any call succeed or fail with any response.
* The mutable fields of the Python object (`prompt_tokens`,
  `completion_tokens`, `cost`, `response_cache`) are threaded through an
  explicit `ClientState`; `calls` is a ghost counter of transport calls
  (network requests actually issued) and `trace` / `assert_failures` in the
  loop state are ghost instrumentation recording each attempt's requested
  batch size and outcome; neither influences control flow.
* `random.randint(1,3)` sleeping and logging have no observable effect on
  the returned data and are not modelled.
-/

namespace VLLMClient

/-- A chat message `{"role": ..., "content": ...}`. -/
structure Message where
  role : String
  content : String
  deriving DecidableEq

/-- Token usage record of a response (`response.usage`). -/
structure Usage where
  prompt_tokens : Nat
  completion_tokens : Nat
  deriving DecidableEq

/-- One choice of a chat completion; `choice.message.content` is the
generated text. -/
structure Choice where
  message : Message
  deriving DecidableEq

/-- A transport response (`ChatCompletion`): a list of choices and an
optional usage record (`response.usage` may be absent or `None`). -/
structure ChatCompletion where
  choices : List Choice
  usage : Option Usage
  deriving DecidableEq

/-- The single transport error kind (`OpenAIError`; nothing in the client
inspects the payload of a caught exception). -/
inductive TransportErr where
  | err
  deriving DecidableEq

/-- Result of `query`: a bare `ChatCompletion` on the `num_responses == 1`
path, a list of them on the adaptive path. -/
inductive QueryResult where
  | single : ChatCompletion → QueryResult
  | multi : List ChatCompletion → QueryResult
  deriving DecidableEq

/-- The mutable state of a `vLLMClient` instance, plus the ghost transport
call counter `calls`. `prompt_token_cost`, `response_token_cost` and
`cache` are configuration, set at construction and never mutated. -/
structure ClientState where
  prompt_token_cost : ℚ
  response_token_cost : ℚ
  cache : Bool
  prompt_tokens : Nat
  completion_tokens : Nat
  cost : ℚ
  response_cache : List (String × QueryResult)
  calls : Nat
  deriving DecidableEq

/-- The transport oracle: call index, messages, `n` (number of responses
requested) ↦ response or transport error. -/
def Transport : Type :=
  Nat → List Message → Nat → Except TransportErr ChatCompletion

/-- Usage/cost accounting of `chat` (vllm_client.py lines 132-141): if the
response carries a usage record, add its token counts to the running
totals and recompute `cost` from the per-1000-token rates; otherwise leave
the state unchanged. -/
def updateUsage (st : ClientState) (response : ChatCompletion) : ClientState :=
  match response.usage with
  | some u =>
    let new_prompt_tokens := st.prompt_tokens + u.prompt_tokens
    let new_completion_tokens := st.completion_tokens + u.completion_tokens
    let prompt_tokens_k : ℚ := (new_prompt_tokens : ℚ) / 1000
    let completion_tokens_k : ℚ := (new_completion_tokens : ℚ) / 1000
    { st with
      prompt_tokens := new_prompt_tokens
      completion_tokens := new_completion_tokens
      cost := st.prompt_token_cost * prompt_tokens_k
        + st.response_token_cost * completion_tokens_k }
  | none => st

/-- Body of `chat` with its `backoff.on_exception(..., max_tries=6)` decorator,
with `tries` remaining tries: issue the transport call; on success update
the usage counters and return the response; on `OpenAIError` retry until
the try budget is exhausted, then let the error escape to the caller of
`chat`. Each issued call bumps the ghost `calls` counter. (The decorator's
`max_time=10` wall-clock cap is real time and is not modelled; the try
cap alone bounds the retries here.) -/
def chatBackoff (transport : Transport) (messages : List Message)
    (num_responses : Nat) : Nat → ClientState →
    Except TransportErr ChatCompletion × ClientState
  | 0, st => (.error .err, st)
  | tries + 1, st =>
    match transport st.calls messages num_responses with
    | .ok response =>
      (.ok response, updateUsage { st with calls := st.calls + 1 } response)
    | .error _ =>
      chatBackoff transport messages num_responses tries
        { st with calls := st.calls + 1 }

/-- The `max_tries=6` bound of the backoff decorator on `chat`. -/
def max_tries : Nat := 6

/-- The decorated `chat` method: at most `max_tries` transport calls. -/
def chat (transport : Transport) (messages : List Message)
    (num_responses : Nat) (st : ClientState) :
    Except TransportErr ChatCompletion × ClientState :=
  chatBackoff transport messages num_responses max_tries st

/-- The local state of the adaptive loop in `query` (lines 88-104):
accumulated responses, `num_responses` still to obtain, `next_try` batch
size, `total_num_attempts` failure budget, the client state, and ghost
instrumentation: `trace` records `(batch size, succeeded?)` for each
transport attempt, `assert_failures` counts failures of
`assert next_try > 0`. -/
structure MultiState where
  response : List ChatCompletion
  num_responses : Nat
  next_try : Nat
  total_num_attempts : Nat
  trace : List (Nat × Bool)
  assert_failures : Nat
  client : ClientState
  deriving DecidableEq

/-- Successful iteration of the adaptive loop (lines 94-97): append the
response, `num_responses -= next_try`, `next_try = min(num_responses,
next_try)`. -/
def stepSuccess (s : MultiState) (res : ChatCompletion) (c : ClientState) :
    MultiState :=
  { response := s.response ++ [res]
    num_responses := s.num_responses - s.next_try
    next_try := min (s.num_responses - s.next_try) s.next_try
    total_num_attempts := s.total_num_attempts
    trace := s.trace ++ [(s.next_try, true)]
    assert_failures := s.assert_failures
    client := c }

/-- Failed iteration of the adaptive loop (lines 98-104): halve the batch
size rounding up (`next_try = (next_try + 1) // 2`), decrement the
attempt budget; `num_responses` is untouched. -/
def stepFailure (s : MultiState) (c : ClientState) : MultiState :=
  { s with
    next_try := (s.next_try + 1) / 2
    total_num_attempts := s.total_num_attempts - 1
    trace := s.trace ++ [(s.next_try, false)]
    client := c }

/-- The branch taken when `assert next_try > 0` raises (line 93): the
`AssertionError` is caught by the same `except Exception` handler, with no
transport call made. Ghost-counted in `assert_failures`. -/
def stepAssertFail (s : MultiState) : MultiState :=
  { s with
    next_try := (s.next_try + 1) / 2
    total_num_attempts := s.total_num_attempts - 1
    assert_failures := s.assert_failures + 1 }

/-- The `while num_responses > 0 and total_num_attempts > 0` loop of
`query` (lines 91-104), as structural recursion on a fuel bound on the
iteration count. `queryLoopF_fuel_irrelevant` below shows any fuel of at
least `num_responses + total_num_attempts` computes the limit of the
unbounded loop, so the fuel is an embedding artifact, not a semantic
cutoff. -/
def queryLoopF (transport : Transport) (q : String) :
    Nat → MultiState → MultiState
  | 0, s => s
  | fuel + 1, s =>
    if 0 < s.num_responses ∧ 0 < s.total_num_attempts then
      if 0 < s.next_try then
        match chat transport [⟨"user", q⟩] s.next_try s.client with
        | (.ok res, c) => queryLoopF transport q fuel (stepSuccess s res c)
        | (.error _, c) => queryLoopF transport q fuel (stepFailure s c)
      else
        queryLoopF transport q fuel (stepAssertFail s)
    else s

/-- Loop state at entry to the adaptive path: `response = []`,
`next_try = total_num_attempts = num_responses` (lines 88-90). -/
def initMultiState (num_responses : Nat) (st : ClientState) : MultiState :=
  { response := []
    num_responses := num_responses
    next_try := num_responses
    total_num_attempts := num_responses
    trace := []
    assert_failures := 0
    client := st }

/-- Method `query` (lines 69-108): check the cache; `num_responses == 1` issues a
single `chat` call whose transport error, if any, propagates to the
caller; otherwise run the adaptive loop, which cannot raise. On normal
completion, store the result in the cache when caching is enabled. -/
def query (transport : Transport) (q : String) (num_responses : Nat)
    (st : ClientState) : Except TransportErr QueryResult × ClientState :=
  match (if st.cache then st.response_cache.lookup q else none) with
  | some cached => (.ok cached, st)
  | none =>
    if num_responses == 1 then
      match chat transport [⟨"user", q⟩] num_responses st with
      | (.ok r, st') =>
        (.ok (.single r),
         if st'.cache then
           { st' with response_cache := (q, QueryResult.single r) :: st'.response_cache }
         else st')
      | (.error e, st') => (.error e, st')
    else
      let final := queryLoopF transport q (num_responses + num_responses)
        (initMultiState num_responses st)
      (.ok (.multi final.response),
       if final.client.cache then
         { final.client with
           response_cache := (q, QueryResult.multi final.response) :: final.client.response_cache }
       else final.client)

/-- Method `get_response_texts` (lines 149-167): flatten the choices of one
response or of a list of responses, in order, to their generated texts. -/
def get_response_texts : QueryResult → List String
  | .multi query_response =>
    query_response.flatMap fun response =>
      response.choices.map fun choice => choice.message.content
  | .single query_response =>
    query_response.choices.map fun choice => choice.message.content

/-- Prompt-token count a response reports (0 when it carries no usage). -/
def usagePromptTokens (r : ChatCompletion) : Nat :=
  match r.usage with
  | some u => u.prompt_tokens
  | none => 0

/-- Completion-token count a response reports (0 when it carries no
usage). -/
def usageCompletionTokens (r : ChatCompletion) : Nat :=
  match r.usage with
  | some u => u.completion_tokens
  | none => 0

/-- Invariant of the adaptive loop: the batch size is positive while work
remains, and never exceeds the remaining count. It holds at
`initMultiState` and is preserved by both loop steps. -/
def LoopInv (s : MultiState) : Prop :=
  (0 < s.num_responses → 0 < s.next_try) ∧ s.next_try ≤ s.num_responses

theorem updateUsage_some (st : ClientState) (r : ChatCompletion) (u : Usage)
    (h : r.usage = some u) :
    updateUsage st r =
      { st with
        prompt_tokens := st.prompt_tokens + u.prompt_tokens
        completion_tokens := st.completion_tokens + u.completion_tokens
        cost := st.prompt_token_cost * ((st.prompt_tokens + u.prompt_tokens : Nat) : ℚ) / 1000
          + st.response_token_cost * ((st.completion_tokens + u.completion_tokens : Nat) : ℚ) / 1000 } := by
  simp only [updateUsage, h]
  congr 1
  ring

theorem updateUsage_none (st : ClientState) (r : ChatCompletion)
    (h : r.usage = none) : updateUsage st r = st := by
  simp [updateUsage, h]

theorem updateUsage_config (st : ClientState) (r : ChatCompletion) :
    (updateUsage st r).prompt_token_cost = st.prompt_token_cost ∧
    (updateUsage st r).response_token_cost = st.response_token_cost ∧
    (updateUsage st r).cache = st.cache ∧
    (updateUsage st r).response_cache = st.response_cache := by
  unfold updateUsage
  cases r.usage <;> simp

theorem updateUsage_tokens (st : ClientState) (r : ChatCompletion) :
    (updateUsage st r).prompt_tokens = st.prompt_tokens + usagePromptTokens r ∧
    (updateUsage st r).completion_tokens
      = st.completion_tokens + usageCompletionTokens r := by
  unfold updateUsage usagePromptTokens usageCompletionTokens
  cases r.usage <;> simp

theorem foldl_updateUsage_tokens (rs : List ChatCompletion) :
    ∀ st : ClientState,
    (rs.foldl updateUsage st).prompt_tokens
      = st.prompt_tokens + (rs.map usagePromptTokens).sum ∧
    (rs.foldl updateUsage st).completion_tokens
      = st.completion_tokens + (rs.map usageCompletionTokens).sum := by
  induction rs with
  | nil => intro st; simp
  | cons r rs ih =>
    intro st
    obtain ⟨hp, hc⟩ := ih (updateUsage st r)
    obtain ⟨hp0, hc0⟩ := updateUsage_tokens st r
    simp only [List.foldl_cons, List.map_cons, List.sum_cons, hp, hc, hp0, hc0]
    omega

theorem foldl_updateUsage_config (rs : List ChatCompletion) :
    ∀ st : ClientState,
    (rs.foldl updateUsage st).prompt_token_cost = st.prompt_token_cost ∧
    (rs.foldl updateUsage st).response_token_cost = st.response_token_cost := by
  induction rs with
  | nil => intro st; simp
  | cons r rs ih =>
    intro st
    obtain ⟨h1, h2⟩ := ih (updateUsage st r)
    obtain ⟨g1, g2, -, -⟩ := updateUsage_config st r
    exact ⟨h1.trans g1, h2.trans g2⟩

theorem foldl_updateUsage_cost (rs : List ChatCompletion) :
    ∀ st : ClientState, rs ≠ [] → (∀ r ∈ rs, (r.usage).isSome = true) →
    (rs.foldl updateUsage st).cost =
      st.prompt_token_cost * ((rs.foldl updateUsage st).prompt_tokens : ℚ) / 1000
      + st.response_token_cost * ((rs.foldl updateUsage st).completion_tokens : ℚ) / 1000 := by
  induction rs with
  | nil => intro st h; exact absurd rfl h
  | cons r rs ih =>
    intro st _hne hsome
    cases rs with
    | nil =>
      obtain ⟨u, hu⟩ := Option.isSome_iff_exists.mp (hsome r (by simp))
      simp [updateUsage_some st r u hu]
    | cons r' rs' =>
      have step := ih (updateUsage st r) (by simp)
        (fun x hx => hsome x (by simp [hx]))
      obtain ⟨g1, g2, -, -⟩ := updateUsage_config st r
      simpa [g1, g2] using step

theorem chatBackoff_config (transport : Transport) (messages : List Message)
    (n : Nat) : ∀ (tries : Nat) (st : ClientState),
    ((chatBackoff transport messages n tries st).2).prompt_token_cost = st.prompt_token_cost ∧
    ((chatBackoff transport messages n tries st).2).response_token_cost = st.response_token_cost ∧
    ((chatBackoff transport messages n tries st).2).cache = st.cache ∧
    ((chatBackoff transport messages n tries st).2).response_cache = st.response_cache := by
  intro tries
  induction tries with
  | zero => intro st; simp [chatBackoff]
  | succ tries ih =>
    intro st
    simp only [chatBackoff]
    cases transport st.calls messages n with
    | ok r =>
      simpa using updateUsage_config { st with calls := st.calls + 1 } r
    | error e =>
      simpa using ih { st with calls := st.calls + 1 }

theorem chatBackoff_ok_usage (transport : Transport) (messages : List Message)
    (n : Nat) : ∀ (tries : Nat) (st : ClientState) (r : ChatCompletion)
    (st' : ClientState),
    chatBackoff transport messages n tries st = (.ok r, st') →
    (∀ u, r.usage = some u →
      st'.prompt_tokens = st.prompt_tokens + u.prompt_tokens ∧
      st'.completion_tokens = st.completion_tokens + u.completion_tokens ∧
      st'.cost = st.prompt_token_cost * (st'.prompt_tokens : ℚ) / 1000
        + st.response_token_cost * (st'.completion_tokens : ℚ) / 1000) ∧
    (r.usage = none →
      st'.prompt_tokens = st.prompt_tokens ∧
      st'.completion_tokens = st.completion_tokens ∧
      st'.cost = st.cost) := by
  intro tries
  induction tries with
  | zero => intro st r st' h; simp [chatBackoff] at h
  | succ tries ih =>
    intro st r st' h
    simp only [chatBackoff] at h
    cases htr : transport st.calls messages n with
    | ok r0 =>
      rw [htr] at h
      simp only at h
      have h1 : Except.ok (ε := TransportErr) r0 = Except.ok r :=
        congrArg Prod.fst h
      have h2 : updateUsage { st with calls := st.calls + 1 } r0 = st' :=
        congrArg Prod.snd h
      obtain rfl : r0 = r := by injection h1
      subst h2
      constructor
      · intro u hu
        rw [updateUsage_some _ _ u hu]
        refine ⟨rfl, rfl, ?_⟩
        simp
      · intro hu
        rw [updateUsage_none _ _ hu]
        exact ⟨rfl, rfl, rfl⟩
    | error e =>
      rw [htr] at h
      simp only at h
      exact ih { st with calls := st.calls + 1 } r st' h

theorem chatBackoff_allfail (transport : Transport) (messages : List Message)
    (n : Nat) (hfail : ∀ i m k, transport i m k = .error .err) :
    ∀ (tries : Nat) (st : ClientState),
    (chatBackoff transport messages n tries st).1 = .error .err := by
  intro tries
  induction tries with
  | zero => intro st; rfl
  | succ tries ih =>
    intro st
    simp only [chatBackoff, hfail]
    exact ih _

theorem chat_config (transport : Transport) (messages : List Message)
    (n : Nat) (st : ClientState) :
    ((chat transport messages n st).2).prompt_token_cost = st.prompt_token_cost ∧
    ((chat transport messages n st).2).response_token_cost = st.response_token_cost ∧
    ((chat transport messages n st).2).cache = st.cache ∧
    ((chat transport messages n st).2).response_cache = st.response_cache :=
  chatBackoff_config transport messages n max_tries st

theorem queryLoopF_exit (transport : Transport) (q : String) :
    ∀ (fuel : Nat) (s : MultiState),
    s.num_responses + s.total_num_attempts ≤ fuel →
    (queryLoopF transport q fuel s).num_responses = 0 ∨
    (queryLoopF transport q fuel s).total_num_attempts = 0 := by
  intro fuel
  induction fuel with
  | zero =>
    intro s h
    simp only [queryLoopF]
    omega
  | succ fuel ih =>
    intro s h
    simp only [queryLoopF]
    by_cases hg : 0 < s.num_responses ∧ 0 < s.total_num_attempts
    · rw [if_pos hg]
      by_cases hn : 0 < s.next_try
      · rw [if_pos hn]
        cases hchat : chat transport [⟨"user", q⟩] s.next_try s.client with
        | mk res c =>
          cases res with
          | ok r =>
            dsimp only
            exact ih (stepSuccess s r c) (by simp only [stepSuccess]; omega)
          | error e =>
            dsimp only
            exact ih (stepFailure s c) (by simp only [stepFailure]; omega)
      · rw [if_neg hn]
        exact ih (stepAssertFail s) (by simp only [stepAssertFail]; omega)
    · rw [if_neg hg]
      omega

theorem queryLoopF_fuel_succ (transport : Transport) (q : String) :
    ∀ (fuel : Nat) (s : MultiState),
    s.num_responses + s.total_num_attempts ≤ fuel →
    queryLoopF transport q (fuel + 1) s = queryLoopF transport q fuel s := by
  intro fuel
  induction fuel with
  | zero =>
    intro s h
    simp only [queryLoopF]
    rw [if_neg (by omega)]
  | succ fuel ih =>
    intro s h
    conv_lhs => rw [queryLoopF]
    conv_rhs => rw [queryLoopF]
    by_cases hg : 0 < s.num_responses ∧ 0 < s.total_num_attempts
    · rw [if_pos hg, if_pos hg]
      by_cases hn : 0 < s.next_try
      · rw [if_pos hn, if_pos hn]
        cases hchat : chat transport [⟨"user", q⟩] s.next_try s.client with
        | mk res c =>
          cases res with
          | ok r =>
            dsimp only
            exact ih (stepSuccess s r c) (by simp only [stepSuccess]; omega)
          | error e =>
            dsimp only
            exact ih (stepFailure s c) (by simp only [stepFailure]; omega)
      · rw [if_neg hn, if_neg hn]
        exact ih (stepAssertFail s) (by simp only [stepAssertFail]; omega)
    · rw [if_neg hg, if_neg hg]

theorem queryLoopF_fuel_ge (transport : Transport) (q : String)
    (s : MultiState) (fuel fuel' : Nat)
    (h : s.num_responses + s.total_num_attempts ≤ fuel) (hle : fuel ≤ fuel') :
    queryLoopF transport q fuel' s = queryLoopF transport q fuel s := by
  induction fuel', hle using Nat.le_induction with
  | base => rfl
  | succ k hk ih => rw [queryLoopF_fuel_succ transport q k s (by omega), ih]

theorem queryLoopF_inv (transport : Transport) (q : String) :
    ∀ (fuel : Nat) (s : MultiState), LoopInv s →
    LoopInv (queryLoopF transport q fuel s) ∧
    (queryLoopF transport q fuel s).assert_failures = s.assert_failures ∧
    ∀ p ∈ (queryLoopF transport q fuel s).trace, p ∈ s.trace ∨ 1 ≤ p.1 := by
  intro fuel
  induction fuel with
  | zero =>
    intro s hs
    exact ⟨hs, rfl, fun p hp => .inl hp⟩
  | succ fuel ih =>
    intro s hs
    simp only [queryLoopF]
    by_cases hg : 0 < s.num_responses ∧ 0 < s.total_num_attempts
    · rw [if_pos hg]
      have hn : 0 < s.next_try := hs.1 hg.1
      rw [if_pos hn]
      cases hchat : chat transport [⟨"user", q⟩] s.next_try s.client with
      | mk res c =>
        cases res with
        | ok r =>
          dsimp only
          have hinv : LoopInv (stepSuccess s r c) := by
            constructor
            · intro hpos
              simp only [stepSuccess] at hpos ⊢
              omega
            · simp only [stepSuccess]
              omega
          obtain ⟨i1, i2, i3⟩ := ih (stepSuccess s r c) hinv
          refine ⟨i1, i2.trans rfl, ?_⟩
          intro p hp
          rcases i3 p hp with hmem | hge
          · simp only [stepSuccess, List.mem_append, List.mem_singleton] at hmem
            rcases hmem with h' | h'
            · exact .inl h'
            · right
              subst h'
              simpa using hn
          · exact .inr hge
        | error e =>
          dsimp only
          have hinv : LoopInv (stepFailure s c) := by
            constructor
            · intro hpos
              simp only [stepFailure] at hpos ⊢
              omega
            · simp only [stepFailure]
              have := hs.2
              omega
          obtain ⟨i1, i2, i3⟩ := ih (stepFailure s c) hinv
          refine ⟨i1, i2.trans rfl, ?_⟩
          intro p hp
          rcases i3 p hp with hmem | hge
          · simp only [stepFailure, List.mem_append, List.mem_singleton] at hmem
            rcases hmem with h' | h'
            · exact .inl h'
            · right
              subst h'
              simpa using hn
          · exact .inr hge
    · rw [if_neg hg]
      exact ⟨hs, rfl, fun p hp => .inl hp⟩

theorem queryLoopF_failures (transport : Transport) (q : String) :
    ∀ (fuel : Nat) (s : MultiState),
    ((queryLoopF transport q fuel s).trace.countP fun p => !p.2)
      ≤ (s.trace.countP fun p => !p.2) + s.total_num_attempts := by
  intro fuel
  induction fuel with
  | zero =>
    intro s
    simp only [queryLoopF]
    omega
  | succ fuel ih =>
    intro s
    simp only [queryLoopF]
    by_cases hg : 0 < s.num_responses ∧ 0 < s.total_num_attempts
    · rw [if_pos hg]
      by_cases hn : 0 < s.next_try
      · rw [if_pos hn]
        cases hchat : chat transport [⟨"user", q⟩] s.next_try s.client with
        | mk res c =>
          cases res with
          | ok r =>
            dsimp only
            have h1 := ih (stepSuccess s r c)
            have ht : (stepSuccess s r c).trace
                = s.trace ++ [(s.next_try, true)] := rfl
            have ha : (stepSuccess s r c).total_num_attempts
                = s.total_num_attempts := rfl
            rw [ht, ha, List.countP_append] at h1
            have h2 : (List.countP (fun p => !p.2) [(s.next_try, true)]) = 0 := by
              simp
            rw [h2] at h1
            omega
          | error e =>
            dsimp only
            have h1 := ih (stepFailure s c)
            have ht : (stepFailure s c).trace
                = s.trace ++ [(s.next_try, false)] := rfl
            have ha : (stepFailure s c).total_num_attempts
                = s.total_num_attempts - 1 := rfl
            rw [ht, ha, List.countP_append] at h1
            have h2 : (List.countP (fun p => !p.2) [(s.next_try, false)]) = 1 := by
              simp
            rw [h2] at h1
            omega
      · rw [if_neg hn]
        have h1 := ih (stepAssertFail s)
        have ht : (stepAssertFail s).trace = s.trace := rfl
        have ha : (stepAssertFail s).total_num_attempts
            = s.total_num_attempts - 1 := rfl
        rw [ht, ha] at h1
        omega
    · rw [if_neg hg]
      omega

theorem queryLoopF_client_config (transport : Transport) (q : String) :
    ∀ (fuel : Nat) (s : MultiState),
    ((queryLoopF transport q fuel s).client).cache = s.client.cache ∧
    ((queryLoopF transport q fuel s).client).response_cache
      = s.client.response_cache := by
  intro fuel
  induction fuel with
  | zero => intro s; simp [queryLoopF]
  | succ fuel ih =>
    intro s
    simp only [queryLoopF]
    by_cases hg : 0 < s.num_responses ∧ 0 < s.total_num_attempts
    · rw [if_pos hg]
      by_cases hn : 0 < s.next_try
      · rw [if_pos hn]
        have hcfg := chat_config transport [⟨"user", q⟩] s.next_try s.client
        cases hchat : chat transport [⟨"user", q⟩] s.next_try s.client with
        | mk res c =>
          rw [hchat] at hcfg
          dsimp only at hcfg
          cases res with
          | ok r =>
            dsimp only
            obtain ⟨j1, j2⟩ := ih (stepSuccess s r c)
            simp only [stepSuccess] at j1 j2
            exact ⟨j1.trans hcfg.2.2.1, j2.trans hcfg.2.2.2⟩
          | error e =>
            dsimp only
            obtain ⟨j1, j2⟩ := ih (stepFailure s c)
            simp only [stepFailure] at j1 j2
            exact ⟨j1.trans hcfg.2.2.1, j2.trans hcfg.2.2.2⟩
      · rw [if_neg hn]
        obtain ⟨j1, j2⟩ := ih (stepAssertFail s)
        simp only [stepAssertFail] at j1 j2
        exact ⟨j1, j2⟩
    · rw [if_neg hg]
      exact ⟨rfl, rfl⟩

theorem query_cache_hit (transport : Transport) (q : String) (n : Nat)
    (st : ClientState) (r : QueryResult)
    (hc : st.cache = true) (hl : st.response_cache.lookup q = some r) :
    query transport q n st = (.ok r, st) := by
  simp [query, hc, hl]

theorem query_stores_result (transport : Transport) (q : String) (n : Nat)
    (st : ClientState) (r : QueryResult) (st' : ClientState)
    (hc : st.cache = true) (h : query transport q n st = (.ok r, st')) :
    st'.cache = true ∧ st'.response_cache.lookup q = some r := by
  rw [query] at h
  rw [hc] at h
  simp only [if_true] at h
  cases hl : st.response_cache.lookup q with
  | some cached =>
    rw [hl] at h
    dsimp only at h
    have h1 : Except.ok (ε := TransportErr) cached = .ok r := congrArg Prod.fst h
    have h2 : st = st' := congrArg Prod.snd h
    obtain rfl : cached = r := by injection h1
    subst h2
    exact ⟨hc, hl⟩
  | none =>
    rw [hl] at h
    dsimp only at h
    by_cases hn1 : (n == 1) = true
    · rw [if_pos hn1] at h
      have hcfg := chat_config transport [⟨"user", q⟩] n st
      cases hchat : chat transport [⟨"user", q⟩] n st with
      | mk res c =>
        rw [hchat] at hcfg h
        cases res with
        | ok r0 =>
          have hcc : c.cache = true := hcfg.2.2.1.trans hc
          have h' : (Except.ok (QueryResult.single r0),
              if c.cache = true then
                { c with
                  response_cache := (q, QueryResult.single r0) :: c.response_cache }
              else c) = (Except.ok (ε := TransportErr) r, st') := h
          rw [hcc] at h'
          simp only [if_true] at h'
          have h1 : Except.ok (ε := TransportErr) (QueryResult.single r0) = .ok r :=
            congrArg Prod.fst h'
          have h2 := congrArg Prod.snd h'
          dsimp only at h2
          obtain rfl : QueryResult.single r0 = r := by injection h1
          subst h2
          exact ⟨rfl, by simp [List.lookup]⟩
        | error e =>
          have h' : (Except.error e, c)
              = (Except.ok (ε := TransportErr) r, st') := h
          exact absurd (congrArg Prod.fst h') (by simp)
    · rw [if_neg hn1] at h
      have hcfg := queryLoopF_client_config transport q (n + n)
        (initMultiState n st)
      have hcc : (queryLoopF transport q (n + n) (initMultiState n st)).client.cache = true :=
        hcfg.1.trans hc
      have h' : (Except.ok (QueryResult.multi
            (queryLoopF transport q (n + n) (initMultiState n st)).response),
          if (queryLoopF transport q (n + n) (initMultiState n st)).client.cache = true then
            { (queryLoopF transport q (n + n) (initMultiState n st)).client with
              response_cache :=
                (q, QueryResult.multi (queryLoopF transport q (n + n) (initMultiState n st)).response)
                  :: (queryLoopF transport q (n + n) (initMultiState n st)).client.response_cache }
          else (queryLoopF transport q (n + n) (initMultiState n st)).client)
          = (Except.ok (ε := TransportErr) r, st') := h
      rw [hcc] at h'
      simp only [if_true] at h'
      have h1 : Except.ok (ε := TransportErr)
          (QueryResult.multi (queryLoopF transport q (n + n) (initMultiState n st)).response) = .ok r :=
        congrArg Prod.fst h'
      have h2 := congrArg Prod.snd h'
      dsimp only at h2
      obtain rfl : QueryResult.multi (queryLoopF transport q (n + n) (initMultiState n st)).response = r := by
        injection h1
      subst h2
      exact ⟨hcc, by simp [List.lookup]⟩

/-- A client state with caching disabled, zero usage counters and zero
cost rates: the state of a freshly constructed client. -/
def stNoCache : ClientState :=
  { prompt_token_cost := 0
    response_token_cost := 0
    cache := false
    prompt_tokens := 0
    completion_tokens := 0
    cost := 0
    response_cache := []
    calls := 0 }

/-- A freshly constructed client state with caching enabled. -/
def stWithCache : ClientState := { stNoCache with cache := true }

/-- A one-text choice. -/
def mkChoice (s : String) : Choice := ⟨⟨"assistant", s⟩⟩

/-- A completion carrying `n` choices and no usage record. -/
def okCompletion (n : Nat) : ChatCompletion :=
  { choices := List.replicate n (mkChoice "text"), usage := none }

/-- A transport stub that always succeeds, returning exactly the requested
number of choices. -/
def okTransport : Transport := fun _ _ n => .ok (okCompletion n)

/-- A transport stub that fails on every call. -/
def failTransport : Transport := fun _ _ _ => .error .err

/-- The transport stub of the spec scenario: fails on any request for more
than 2 choices, succeeds otherwise with exactly the requested number. -/
def stubOver2Fails : Transport := fun _ _ n =>
  if n > 2 then .error .err else .ok (okCompletion n)

/-- C1: in the adaptive loop of `query`, whenever a transport attempt
fails, the loop continues from `stepFailure`, whose batch size is
`(next_try + 1) / 2`, which is exactly `ceil(next_try / 2)`
(characterized by `next_try ≤ 2 * new ≤ next_try + 1`) and at least 1;
`num_responses` (the remaining count) is unchanged, the attempt budget
drops by exactly 1, and the batch size does not increase — hence it never
increases across consecutive failures. -/
theorem failed_attempt_halves_batch (transport : Transport) (q : String)
    (s : MultiState) (fuel : Nat) (e : TransportErr) (c : ClientState)
    (hnum : 0 < s.num_responses) (hatt : 0 < s.total_num_attempts)
    (hnt : 0 < s.next_try)
    (hchat : chat transport [⟨"user", q⟩] s.next_try s.client = (.error e, c)) :
    queryLoopF transport q (fuel + 1) s
      = queryLoopF transport q fuel (stepFailure s c) ∧
    (stepFailure s c).next_try = (s.next_try + 1) / 2 ∧
    s.next_try ≤ 2 * (stepFailure s c).next_try ∧
    2 * (stepFailure s c).next_try ≤ s.next_try + 1 ∧
    1 ≤ (stepFailure s c).next_try ∧
    (stepFailure s c).next_try ≤ s.next_try ∧
    (stepFailure s c).num_responses = s.num_responses ∧
    (stepFailure s c).total_num_attempts + 1 = s.total_num_attempts := by
  refine ⟨?_, rfl, ?_, ?_, ?_, ?_, rfl, ?_⟩
  · simp only [queryLoopF]
    rw [if_pos ⟨hnum, hatt⟩, if_pos hnt, hchat]
  all_goals simp only [stepFailure]
  all_goals omega

/-- C2: in the adaptive loop of `query`, whenever a transport attempt
succeeds, the loop continues from `stepSuccess`, where the response is
appended, the remaining count drops by exactly the batch size just
requested, the next batch size is `min(remaining_after_success,
previous_batch_size)` — so it never grows after a success — and the
attempt budget is unchanged. -/
theorem successful_attempt_shrinks_batch (transport : Transport)
    (q : String) (s : MultiState) (fuel : Nat) (res : ChatCompletion)
    (c : ClientState)
    (hnum : 0 < s.num_responses) (hatt : 0 < s.total_num_attempts)
    (hnt : 0 < s.next_try) (hle : s.next_try ≤ s.num_responses)
    (hchat : chat transport [⟨"user", q⟩] s.next_try s.client = (.ok res, c)) :
    queryLoopF transport q (fuel + 1) s
      = queryLoopF transport q fuel (stepSuccess s res c) ∧
    (stepSuccess s res c).num_responses + s.next_try = s.num_responses ∧
    (stepSuccess s res c).next_try
      = min (stepSuccess s res c).num_responses s.next_try ∧
    (stepSuccess s res c).next_try ≤ s.next_try ∧
    (stepSuccess s res c).response = s.response ++ [res] ∧
    (stepSuccess s res c).total_num_attempts = s.total_num_attempts := by
  refine ⟨?_, ?_, rfl, ?_, rfl, rfl⟩
  · simp only [queryLoopF]
    rw [if_pos ⟨hnum, hatt⟩, if_pos hnt, hchat]
  all_goals simp only [stepSuccess]
  all_goals omega

/-- C3 (counterexample): in the spec scenario — `query` for 5 responses
against a transport failing on any batch size over 2 — the attempt trace
contains exactly 2 failed attempts (sizes 5 and 3), not 3 as the claim
states. -/
theorem scenario_failed_attempts_counterexample :
    ((queryLoopF stubOver2Fails "sort [3,1,2]" 10
        (initMultiState 5 stNoCache)).trace.countP fun p => !p.2) = 2 ∧
    ¬ (((queryLoopF stubOver2Fails "sort [3,1,2]" 10
        (initMultiState 5 stNoCache)).trace.countP fun p => !p.2) = 3) := by
  exact ⟨by decide, by decide⟩

/-- C3 (amended): the scenario's attempt sequence is size 5 fail (next
size 3), size 3 fail (next size 2), size 2 success (remaining 3), size 2
success (remaining 1), size 1 success (remaining 0); the final result has
5 total choices, with 2 failed attempts and 3 successful transport
calls. -/
theorem scenario_trace_amended :
    (queryLoopF stubOver2Fails "sort [3,1,2]" 10 (initMultiState 5 stNoCache)).trace
      = [(5, false), (3, false), (2, true), (2, true), (1, true)] ∧
    (queryLoopF stubOver2Fails "sort [3,1,2]" 1 (initMultiState 5 stNoCache)).next_try = 3 ∧
    (queryLoopF stubOver2Fails "sort [3,1,2]" 2 (initMultiState 5 stNoCache)).next_try = 2 ∧
    (queryLoopF stubOver2Fails "sort [3,1,2]" 3 (initMultiState 5 stNoCache)).num_responses = 3 ∧
    (queryLoopF stubOver2Fails "sort [3,1,2]" 4 (initMultiState 5 stNoCache)).num_responses = 1 ∧
    (queryLoopF stubOver2Fails "sort [3,1,2]" 5 (initMultiState 5 stNoCache)).num_responses = 0 ∧
    ((queryLoopF stubOver2Fails "sort [3,1,2]" 10 (initMultiState 5 stNoCache)).trace.countP
        fun p => !p.2) = 2 ∧
    ((queryLoopF stubOver2Fails "sort [3,1,2]" 10 (initMultiState 5 stNoCache)).trace.countP
        fun p => p.2) = 3 ∧
    (query stubOver2Fails "sort [3,1,2]" 5 stNoCache).1
      = .ok (.multi (queryLoopF stubOver2Fails "sort [3,1,2]" 10
          (initMultiState 5 stNoCache)).response) ∧
    (get_response_texts (.multi (queryLoopF stubOver2Fails "sort [3,1,2]" 10
        (initMultiState 5 stNoCache)).response)).length = 5 := by
  refine ⟨by decide, by decide, by decide, by decide, by decide, by decide,
    by decide, by decide, rfl, by decide⟩

/-- Helper for C4 and C5: when `num_responses` is not 1, `query` takes
either the cache-hit branch or the adaptive-loop branch, both of which
return a normal (non-error) result. -/
theorem query_multi_isOk (transport : Transport) (q : String) (n : Nat)
    (st : ClientState) (hn : (n == 1) = false) :
    (query transport q n st).1.isOk = true := by
  rw [query]
  cases hl : (if st.cache then st.response_cache.lookup q else none) with
  | some cached => rfl
  | none =>
    rw [hn]
    rfl

/-- C4: for every `count > 1`, the adaptive loop of `query` terminates:
any fuel at least the loop bound `count + count` computes the same final
state, the final state has `num_responses = 0` (full success) or
`total_num_attempts = 0` (budget exhausted), at most `count` failed
attempts are recorded, and `query` returns the accumulated results
normally, without raising. -/
theorem adaptive_loop_terminates (transport : Transport) (q : String)
    (count : Nat) (st : ClientState) (h : 1 < count) :
    ((queryLoopF transport q (count + count) (initMultiState count st)).num_responses = 0 ∨
      (queryLoopF transport q (count + count) (initMultiState count st)).total_num_attempts = 0) ∧
    ((queryLoopF transport q (count + count) (initMultiState count st)).trace.countP
        fun p => !p.2) ≤ count ∧
    (∀ fuel, count + count ≤ fuel →
      queryLoopF transport q fuel (initMultiState count st)
        = queryLoopF transport q (count + count) (initMultiState count st)) ∧
    (query transport q count st).1.isOk = true := by
  refine ⟨?_, ?_, ?_, ?_⟩
  · exact queryLoopF_exit transport q (count + count) (initMultiState count st)
      (by simp [initMultiState])
  · have h1 := queryLoopF_failures transport q (count + count)
      (initMultiState count st)
    simpa [initMultiState] using h1
  · intro fuel hf
    exact queryLoopF_fuel_ge transport q (initMultiState count st)
      (count + count) fuel (by simp [initMultiState]) hf
  · exact query_multi_isOk transport q count st
      (beq_eq_false_iff_ne.mpr (Nat.ne_of_gt h))

/-- C5: for every `count > 1`, `query` never propagates a transport error
(the result is always a normal value, possibly with fewer choices);
whereas for `count == 1`, against a transport failing every call the
error survives the inner backoff of `chat` and propagates to the caller
of `query`. -/
theorem error_propagation_policy :
    (∀ (transport : Transport) (st : ClientState) (q : String) (n : Nat),
      1 < n → (query transport q n st).1.isOk = true) ∧
    (∀ (transport : Transport) (st : ClientState) (q : String),
      (if st.cache then st.response_cache.lookup q else none) = none →
      (∀ i m k, transport i m k = .error .err) →
      (query transport q 1 st).1 = .error .err) := by
  constructor
  · intro transport st q n hn
    exact query_multi_isOk transport q n st
      (beq_eq_false_iff_ne.mpr (Nat.ne_of_gt hn))
  · intro transport st q hl hfail
    have hb : (chat transport [⟨"user", q⟩] 1 st).1 = .error .err :=
      chatBackoff_allfail transport [⟨"user", q⟩] 1 hfail max_tries st
    rw [query, hl]
    cases hchat : chat transport [⟨"user", q⟩] 1 st with
    | mk res c =>
      rw [hchat] at hb
      cases res with
      | ok r => exact absurd hb (by simp)
      | error e =>
        obtain rfl : e = .err := by cases e; rfl
        rfl

/-- C6: after every successful transport call through `chat`'s backoff
wrapper: if the response reports usage `(p, c)`, the prompt and completion
token counters grow by exactly `p` and `c` and `cost` equals
`prompt_token_cost * prompt_tokens / 1000 + response_token_cost *
completion_tokens / 1000` on the new totals; if the response carries no
usage record, all three counters are unchanged (and no error arises);
accumulating a list of responses adds the sums of the reported usages,
and when all responses report usage the cost formula holds of the final
totals. -/
theorem usage_accounting :
    (∀ (transport : Transport) (messages : List Message) (n tries : Nat)
      (st : ClientState) (r : ChatCompletion) (st' : ClientState),
      chatBackoff transport messages n tries st = (.ok r, st') →
      (∀ u, r.usage = some u →
        st'.prompt_tokens = st.prompt_tokens + u.prompt_tokens ∧
        st'.completion_tokens = st.completion_tokens + u.completion_tokens ∧
        st'.cost = st.prompt_token_cost * (st'.prompt_tokens : ℚ) / 1000
          + st.response_token_cost * (st'.completion_tokens : ℚ) / 1000) ∧
      (r.usage = none →
        st'.prompt_tokens = st.prompt_tokens ∧
        st'.completion_tokens = st.completion_tokens ∧
        st'.cost = st.cost)) ∧
    (∀ (st : ClientState) (rs : List ChatCompletion),
      (rs.foldl updateUsage st).prompt_tokens
        = st.prompt_tokens + (rs.map usagePromptTokens).sum ∧
      (rs.foldl updateUsage st).completion_tokens
        = st.completion_tokens + (rs.map usageCompletionTokens).sum) ∧
    (∀ (st : ClientState) (rs : List ChatCompletion), rs ≠ [] →
      (∀ r ∈ rs, (r.usage).isSome = true) →
      (rs.foldl updateUsage st).cost =
        st.prompt_token_cost * ((rs.foldl updateUsage st).prompt_tokens : ℚ) / 1000
        + st.response_token_cost * ((rs.foldl updateUsage st).completion_tokens : ℚ) / 1000) :=
  ⟨fun transport messages n tries st r st' h =>
      chatBackoff_ok_usage transport messages n tries st r st' h,
    fun st rs => foldl_updateUsage_tokens rs st,
    fun st rs h1 h2 => foldl_updateUsage_cost rs st h1 h2⟩

/-- C7: with caching enabled, once a `query` call completes with result
`r` and post-state `st'`, a repeat call with the identical prompt and the
same count returns exactly `(r, st')` whatever transport oracle is
supplied: the state (including the ghost transport-call counter) is
untouched, so the second call issues zero transport calls. This holds
also when the first result was a degraded (shorter) one — nothing in the
cache store path inspects the result's size. -/
theorem cached_repeat_call (t1 t2 : Transport) (q : String) (n : Nat)
    (st : ClientState) (r : QueryResult) (st' : ClientState)
    (hc : st.cache = true) (h : query t1 q n st = (.ok r, st')) :
    query t2 q n st' = (.ok r, st') := by
  obtain ⟨h1, h2⟩ := query_stores_result t1 q n st r st' hc h
  exact query_cache_hit t2 q n st' r h1 h2

/-- C8: `get_response_texts` flattens to one text per choice in order: the
output length is the total number of choices over all responses (in both
the single- and the multi-response shape), the two shapes agree on a
one-element list, and concatenating response lists concatenates the
outputs (order preservation). -/
theorem response_texts_flatten (rs rs2 : List ChatCompletion)
    (r : ChatCompletion) :
    (get_response_texts (.multi rs)).length
      = (rs.map fun x => x.choices.length).sum ∧
    (get_response_texts (.single r)).length = r.choices.length ∧
    get_response_texts (.multi [r]) = get_response_texts (.single r) ∧
    get_response_texts (.multi (rs ++ rs2))
      = get_response_texts (.multi rs) ++ get_response_texts (.multi rs2) := by
  refine ⟨?_, by simp [get_response_texts], by simp [get_response_texts],
    by simp [get_response_texts]⟩
  induction rs with
  | nil => rfl
  | cons x xs ih =>
    simp only [get_response_texts, List.flatMap_cons, List.length_append,
      List.length_map, List.map_cons, List.sum_cons] at ih ⊢
    omega

/-- C9: from the entry state of the adaptive loop, whatever the transport
outcomes and however many iterations run, every recorded transport
attempt requested a batch size of at least 1, and the
`assert next_try > 0` guard never fired. -/
theorem batch_size_always_positive (transport : Transport) (q : String)
    (count : Nat) (st : ClientState) (fuel : Nat) (h : 1 < count) :
    (queryLoopF transport q fuel (initMultiState count st)).assert_failures = 0 ∧
    ∀ p ∈ (queryLoopF transport q fuel (initMultiState count st)).trace,
      1 ≤ p.1 := by
  have hinv : LoopInv (initMultiState count st) := by
    constructor
    · intro hpos
      simpa [initMultiState] using hpos
    · simp [initMultiState]
  obtain ⟨-, h2, h3⟩ :=
    queryLoopF_inv transport q fuel (initMultiState count st) hinv
  refine ⟨h2.trans rfl, fun p hp => ?_⟩
  rcases h3 p hp with hmem | hge
  · simp [initMultiState] at hmem
  · exact hge

/-- C10: the response cache is keyed by prompt text only: after
`query t1 q n1 st` completes with result `r` and post-state `st'`, a call
with any other count `n2` still returns the cached `(r, st')` untouched,
for any transport oracle — the returned shape and choice count reflect
`n1`, not `n2`, and no transport call is issued. -/
theorem cache_ignores_count (t1 t2 : Transport) (q : String) (n1 n2 : Nat)
    (st : ClientState) (r : QueryResult) (st' : ClientState)
    (hc : st.cache = true) (h : query t1 q n1 st = (.ok r, st')) :
    query t2 q n2 st' = (.ok r, st') := by
  obtain ⟨h1, h2⟩ := query_stores_result t1 q n1 st r st' hc h
  exact query_cache_hit t2 q n2 st' r h1 h2

/-- Client state after 6 failed transport calls (one exhausted `chat`). -/
def cFail6 : ClientState := { stNoCache with calls := 6 }

/-- Client state after 1 successful transport call with no usage data. -/
def cOk1 : ClientState := { stNoCache with calls := 1 }

/-- Witness for C1: concrete failed attempt at the entry state for
count = 2 against the always-failing transport. -/
theorem failed_attempt_halves_batch_witness :
    (0 < (initMultiState 2 stNoCache).num_responses ∧
      0 < (initMultiState 2 stNoCache).total_num_attempts ∧
      0 < (initMultiState 2 stNoCache).next_try) ∧
    (queryLoopF failTransport "p" (0 + 1) (initMultiState 2 stNoCache)
        = queryLoopF failTransport "p" 0
            (stepFailure (initMultiState 2 stNoCache) cFail6) ∧
      (stepFailure (initMultiState 2 stNoCache) cFail6).next_try
        = ((initMultiState 2 stNoCache).next_try + 1) / 2 ∧
      (initMultiState 2 stNoCache).next_try
        ≤ 2 * (stepFailure (initMultiState 2 stNoCache) cFail6).next_try ∧
      2 * (stepFailure (initMultiState 2 stNoCache) cFail6).next_try
        ≤ (initMultiState 2 stNoCache).next_try + 1 ∧
      1 ≤ (stepFailure (initMultiState 2 stNoCache) cFail6).next_try ∧
      (stepFailure (initMultiState 2 stNoCache) cFail6).next_try
        ≤ (initMultiState 2 stNoCache).next_try ∧
      (stepFailure (initMultiState 2 stNoCache) cFail6).num_responses
        = (initMultiState 2 stNoCache).num_responses ∧
      (stepFailure (initMultiState 2 stNoCache) cFail6).total_num_attempts + 1
        = (initMultiState 2 stNoCache).total_num_attempts) :=
  ⟨⟨by decide, by decide, by decide⟩,
    failed_attempt_halves_batch failTransport "p" (initMultiState 2 stNoCache)
      0 .err cFail6 (by decide) (by decide) (by decide) rfl⟩

/-- Witness for C2: concrete successful attempt at the entry state for
count = 2 against the always-succeeding transport. -/
theorem successful_attempt_shrinks_batch_witness :
    (0 < (initMultiState 2 stNoCache).num_responses ∧
      (initMultiState 2 stNoCache).next_try
        ≤ (initMultiState 2 stNoCache).num_responses) ∧
    (queryLoopF okTransport "p" (0 + 1) (initMultiState 2 stNoCache)
        = queryLoopF okTransport "p" 0
            (stepSuccess (initMultiState 2 stNoCache) (okCompletion 2) cOk1) ∧
      (stepSuccess (initMultiState 2 stNoCache) (okCompletion 2) cOk1).num_responses
          + (initMultiState 2 stNoCache).next_try
        = (initMultiState 2 stNoCache).num_responses ∧
      (stepSuccess (initMultiState 2 stNoCache) (okCompletion 2) cOk1).next_try
        = min (stepSuccess (initMultiState 2 stNoCache) (okCompletion 2) cOk1).num_responses
            (initMultiState 2 stNoCache).next_try ∧
      (stepSuccess (initMultiState 2 stNoCache) (okCompletion 2) cOk1).next_try
        ≤ (initMultiState 2 stNoCache).next_try ∧
      (stepSuccess (initMultiState 2 stNoCache) (okCompletion 2) cOk1).response
        = (initMultiState 2 stNoCache).response ++ [okCompletion 2] ∧
      (stepSuccess (initMultiState 2 stNoCache) (okCompletion 2) cOk1).total_num_attempts
        = (initMultiState 2 stNoCache).total_num_attempts) :=
  ⟨⟨by decide, by decide⟩,
    successful_attempt_shrinks_batch okTransport "p"
      (initMultiState 2 stNoCache) 0 (okCompletion 2) cOk1
      (by decide) (by decide) (by decide) (by decide) rfl⟩

/-- Witness for C4: the termination properties at count = 2 against the
always-succeeding transport. -/
theorem adaptive_loop_terminates_witness :
    1 < 2 ∧
    (((queryLoopF okTransport "p" (2 + 2) (initMultiState 2 stNoCache)).num_responses = 0 ∨
        (queryLoopF okTransport "p" (2 + 2) (initMultiState 2 stNoCache)).total_num_attempts = 0) ∧
      ((queryLoopF okTransport "p" (2 + 2) (initMultiState 2 stNoCache)).trace.countP
          fun p => !p.2) ≤ 2 ∧
      (∀ fuel, 2 + 2 ≤ fuel →
        queryLoopF okTransport "p" fuel (initMultiState 2 stNoCache)
          = queryLoopF okTransport "p" (2 + 2) (initMultiState 2 stNoCache)) ∧
      (query okTransport "p" 2 stNoCache).1.isOk = true) :=
  ⟨by decide, adaptive_loop_terminates okTransport "p" 2 stNoCache (by decide)⟩

/-- Witness for C5: count 2 never errors; count 1 against the
always-failing transport errors. -/
theorem error_propagation_policy_witness :
    (query okTransport "p" 2 stNoCache).1.isOk = true ∧
    (query failTransport "p" 1 stNoCache).1 = .error .err :=
  ⟨error_propagation_policy.1 okTransport stNoCache "p" 2 (by decide),
    error_propagation_policy.2 failTransport stNoCache "p" rfl
      (fun i m k => rfl)⟩

/-- A completion reporting usage of 7 prompt and 5 completion tokens. -/
def usageCompletion : ChatCompletion :=
  { choices := [mkChoice "t"], usage := some ⟨7, 5⟩ }

/-- A transport stub that always succeeds with `usageCompletion`. -/
def usageTransport : Transport := fun _ _ _ => .ok usageCompletion

/-- Witness for C6: concrete accounting through `chatBackoff` for a
response reporting usage (7, 5), plus the fold equalities on a
one-response list. -/
theorem usage_accounting_witness :
    ((chatBackoff usageTransport [] 1 6 stNoCache).2.prompt_tokens
        = stNoCache.prompt_tokens + 7 ∧
      (chatBackoff usageTransport [] 1 6 stNoCache).2.completion_tokens
        = stNoCache.completion_tokens + 5 ∧
      (chatBackoff usageTransport [] 1 6 stNoCache).2.cost
        = stNoCache.prompt_token_cost
            * ((chatBackoff usageTransport [] 1 6 stNoCache).2.prompt_tokens : ℚ) / 1000
          + stNoCache.response_token_cost
            * ((chatBackoff usageTransport [] 1 6 stNoCache).2.completion_tokens : ℚ) / 1000) ∧
    (([usageCompletion].foldl updateUsage stNoCache).prompt_tokens
        = stNoCache.prompt_tokens + ([usageCompletion].map usagePromptTokens).sum ∧
      ([usageCompletion].foldl updateUsage stNoCache).completion_tokens
        = stNoCache.completion_tokens + ([usageCompletion].map usageCompletionTokens).sum) ∧
    ([usageCompletion].foldl updateUsage stNoCache).cost =
      stNoCache.prompt_token_cost
          * (([usageCompletion].foldl updateUsage stNoCache).prompt_tokens : ℚ) / 1000
        + stNoCache.response_token_cost
          * (([usageCompletion].foldl updateUsage stNoCache).completion_tokens : ℚ) / 1000 :=
  ⟨(usage_accounting.1 usageTransport [] 1 6 stNoCache usageCompletion
      (chatBackoff usageTransport [] 1 6 stNoCache).2
      (Prod.ext rfl rfl)).1 ⟨7, 5⟩ rfl,
    usage_accounting.2.1 stNoCache [usageCompletion],
    usage_accounting.2.2 stNoCache [usageCompletion] (by simp)
      (fun r hr => by
        simp only [List.mem_singleton] at hr
        subst hr
        rfl)⟩

/-- The cached result of a first `query` call for 2 responses against the
always-succeeding transport. -/
def rCached : QueryResult := .multi [okCompletion 2]

/-- Post-state of that first call: one transport call made, result
cached. -/
def stCached : ClientState :=
  { stWithCache with calls := 1, response_cache := [("p", rCached)] }

/-- Witness for C7: the concrete repeat call returns the cached result and
leaves the state untouched, even against the always-failing transport. -/
theorem cached_repeat_call_witness :
    stWithCache.cache = true ∧
    query failTransport "p" 2 stCached = (.ok rCached, stCached) :=
  ⟨rfl, cached_repeat_call okTransport failTransport "p" 2 stWithCache
    rCached stCached rfl rfl⟩

/-- Witness for C9: concrete run for count = 2 against the always-failing
transport. -/
theorem batch_size_always_positive_witness :
    1 < 2 ∧
    ((queryLoopF failTransport "p" 4 (initMultiState 2 stNoCache)).assert_failures = 0 ∧
      ∀ p ∈ (queryLoopF failTransport "p" 4 (initMultiState 2 stNoCache)).trace,
        1 ≤ p.1) :=
  ⟨by decide, batch_size_always_positive failTransport "p" 2 stNoCache 4
    (by decide)⟩

/-- Witness for C10: a repeat call asking for 5 responses still returns
the cached 2-choice result of the first call (which asked for 2), with no
transport contact. -/
theorem cache_ignores_count_witness :
    stWithCache.cache = true ∧
    query failTransport "p" 5 stCached = (.ok rCached, stCached) ∧
    (get_response_texts rCached).length = 2 :=
  ⟨rfl,
    cache_ignores_count okTransport failTransport "p" 2 5 stWithCache
      rCached stCached rfl rfl,
    by decide⟩

end VLLMClient
